import Mathlib

/-!
Verification of the identity and session management core of the todo-app
monorepo (FastAPI implementation, the authoritative multi-identity model).

The definitions below are a shallow embedding of the Python source:

* `app/services/password.py`  — `PasswordService`
* `app/services/jwt.py`       — `JWTService`
* `app/services/auth.py`      — `AuthService`
* `app/api/deps/auth.py`      — `get_current_user`
* `app/api/routes/admin.py`   — `update_user`, `merge_users`

Machine-level conventions of the embedding:

* Timestamps and UUIDs are `Nat`; `datetime.now(UTC)` is threaded in as an
  explicit `now` argument, and each `uuid.uuid4()` call site takes the fresh
  id as an explicit argument.
* The external Argon2 hasher is modelled abstractly: a digest is either the
  (salted) digest of some password or a malformed string, and the library
  `verify` raises `VerifyMismatchError` on mismatch and `InvalidHashError`
  on a malformed digest, exactly as documented by argon2-cffi.
* SHA-256 token digests (`AuthService._hash_token`) are modelled as an
  abstractly injective digest constructor (`TokenHash`), which encodes the
  collision-resistance assumption on SHA-256.
* The database is a record of lists of rows; `select ... first()` is
  `List.find?`, and an ORM update-and-commit replaces the row by id.
  An `HTTPException` raised before `commit` leaves the database unchanged,
  which the embedding renders by returning `Except.error` without a state.
-/

namespace TodoApi

/-- `RoleEnum` from `app/models/user.py`: guest, admin, sysadmin. -/
inductive RoleEnum where
  | guest
  | admin
  | sysadmin
deriving DecidableEq, Repr

/-- `RoleEnum.value` — the string value of each enum member. -/
def RoleEnum.value : RoleEnum → String
  | .guest => "guest"
  | .admin => "admin"
  | .sysadmin => "sysadmin"

/-- `RoleEnum(update_dto.role)` — parsing a raw role string, `none` on
`ValueError`. -/
def RoleEnum.fromString? : String → Option RoleEnum
  | "guest" => some .guest
  | "admin" => some .admin
  | "sysadmin" => some .sysadmin
  | _ => none

/-- Abstract model of an Argon2 digest string: either a well-formed digest
of some password (per-call salt omitted: it does not affect `verify`
semantics), or a malformed string that is not a valid Argon2 hash. -/
inductive ArgonDigest where
  | valid (password : String)
  | malformed (raw : String)
deriving DecidableEq, Repr

/-- The argon2-cffi exceptions relevant to `PasswordHasher.verify`. -/
inductive Argon2Error where
  | verifyMismatch
  | invalidHash
deriving DecidableEq, Repr

/-- Behaviour of the external `argon2.PasswordHasher.verify`: succeeds on a
matching well-formed digest, raises `VerifyMismatchError` on a well-formed
digest of a different password, raises `InvalidHashError` on a malformed
digest (as documented by argon2-cffi). -/
def argon2Verify (digest : ArgonDigest) (password : String) : Except Argon2Error Unit :=
  match digest with
  | .valid w => if w == password then .ok () else .error .verifyMismatch
  | .malformed _ => .error .invalidHash

/-- `PasswordService.hash_password` (`app/services/password.py`): delegates
to the Argon2 hasher. -/
def hash_password (password : String) : ArgonDigest :=
  .valid password

/-- `PasswordService.verify_password` (`app/services/password.py` lines
26-45): calls `self.hasher.verify` and catches ONLY `VerifyMismatchError`
(returning `false`); any other argon2 exception, in particular the
`InvalidHashError` raised on a malformed digest, propagates to the caller.
The `check_needs_rehash` call on the success path has no observable effect. -/
def verify_password (password_hash : ArgonDigest) (password : String) :
    Except Argon2Error Bool :=
  match argon2Verify password_hash password with
  | .ok () => .ok true
  | .error .verifyMismatch => .ok false
  | .error e => .error e

/-- Python `str.lower()`, computed characterwise over the underlying
character list (keeps the definition kernel-reducible). -/
def pyLower (s : String) : String :=
  ⟨s.data.map Char.toLower⟩

/-- The whitespace characters removed by Python `str.strip()`. -/
def pyIsSpace (c : Char) : Bool :=
  c == ' ' || c == '\t' || c == '\n' || c == '\r' || c == '\x0b' || c == '\x0c'

/-- Python `str.strip()`: drop leading and trailing whitespace. -/
def pyStrip (s : String) : String :=
  ⟨((s.data.dropWhile pyIsSpace).reverse.dropWhile pyIsSpace).reverse⟩

/-- Python substring containment `needle in hay` on strings. -/
def strContains (hay needle : String) : Bool :=
  decide (needle.data <:+: hay.data)

/-- Result dict of `validate_password_strength`. -/
structure StrengthResult where
  isValid : Bool
  errors : List String
deriving DecidableEq, Repr

/-- `PasswordService.validate_password_strength` (`app/services/password.py`):
collects all violations (length below 8, length above 128, password contains
the email when a non-empty email is given, membership in the weak-password
denylist) and is valid iff no violation was collected. The `if email and ...`
guard uses Python truthiness, so an empty email string skips the check. -/
def validate_password_strength (password : String) (email : String) : StrengthResult :=
  let errors : List String :=
    (if password.length < 8 then ["Password must be at least 8 characters long"] else [])
    ++ (if password.length > 128 then ["Password must be at most 128 characters long"] else [])
    ++ (if email != "" && strContains (pyLower password) (pyLower email) then
          ["Password cannot contain your email address"] else [])
    ++ (if ["password", "12345678", "qwerty", "abc123"].contains (pyLower password) then
          ["Password is too common"] else [])
  { isValid := errors.isEmpty, errors := errors }

/-- A bearer token of `JWTService` (`app/services/jwt.py`), modelled by its
decoded content. `access` and `refresh` are tokens validly signed under the
respective keyspace; `forged` stands for any string that is not a validly
signed token of the keyspace it is presented to (including tokens signed
under the other key, which fail signature verification). -/
inductive Token where
  | access (sub : Nat) (email : String) (role : RoleEnum) (iat exp : Nat)
  | refresh (sub : Nat) (sessionId : Nat) (iat exp : Nat)
  | forged (raw : String)
deriving DecidableEq, Repr

/-- The PyJWT failures distinguished by the source: `jwt.ExpiredSignatureError`
and `jwt.InvalidTokenError` (malformed structure or bad signature). -/
inductive JwtError where
  | expired
  | invalid
deriving DecidableEq, Repr

/-- Decoded payload of a refresh token. -/
structure RefreshPayload where
  sub : Nat
  sessionId : Nat
deriving DecidableEq, Repr

/-- Decoded payload of an access token. -/
structure AccessPayload where
  sub : Nat
  email : String
  role : RoleEnum
deriving DecidableEq, Repr

/-- `JWT_ACCESS_EXPIRY` default `15m` (`app/core/config.py`), in seconds. -/
def accessExpirySecs : Nat := 15 * 60

/-- `JWT_REFRESH_EXPIRY` default `7d` (`app/core/config.py`), in seconds. -/
def refreshExpirySecs : Nat := 7 * 24 * 60 * 60

/-- `JWTService.generate_access_token`: payload `sub`, `email`, `role`,
`iat = now`, `exp = now + access expiry`. -/
def generate_access_token (now : Nat) (user_id : Nat) (email : String)
    (role : RoleEnum) : Token :=
  .access user_id email role now (now + accessExpirySecs)

/-- `JWTService.generate_refresh_token`: payload `sub`, `sessionId`,
`iat = now`, `exp = now + refresh expiry`. -/
def generate_refresh_token (now : Nat) (user_id : Nat) (session_id : Nat) : Token :=
  .refresh user_id session_id now (now + refreshExpirySecs)

/-- `JWTService.verify_access_token`: `jwt.decode` under the access key —
raises `ExpiredSignatureError` when `exp` has passed and `InvalidTokenError`
on anything that is not a validly signed access token. -/
def verify_access_token (now : Nat) : Token → Except JwtError AccessPayload
  | .access sub email role _ exp =>
      if exp ≤ now then .error .expired else .ok ⟨sub, email, role⟩
  | _ => .error .invalid

/-- `JWTService.verify_refresh_token`: `jwt.decode` under the refresh key. -/
def verify_refresh_token (now : Nat) : Token → Except JwtError RefreshPayload
  | .refresh sub sid _ exp =>
      if exp ≤ now then .error .expired else .ok ⟨sub, sid⟩
  | _ => .error .invalid

/-- `AuthService._hash_token` is `sha256(token).hexdigest()`; the digest is
modelled as an abstractly injective constructor over the hashed value
(collision-resistance of SHA-256). Refresh-token sessions hash issued JWT
strings (`ofJwt`), reset tokens hash `secrets.token_urlsafe` strings
(`ofSecret`); `empty` is the `""` placeholder a new session row briefly
holds in `_create_auth_response` before the issued token is hashed. -/
inductive TokenHash where
  | ofJwt (t : Token)
  | ofSecret (s : String)
  | empty
deriving DecidableEq, Repr

/-- `AuthService._hash_token` applied to a JWT refresh-token string. -/
def hash_token (t : Token) : TokenHash := .ofJwt t

/-- `AuthService._hash_token` applied to a raw secret token string. -/
def hash_secret (s : String) : TokenHash := .ofSecret s

/-- The multi-identity `User` record. Modelled from the spec: the User model
file of the multi-identity variant is not under the provided sources (the
`app/models/user.py` present is the superseded single-email migration step);
its column set is reconstructed from the alembic migration
`68ee137a5c84_prepare_oauth_support.py` and its uses in
`app/services/auth.py` and `app/api/routes/admin.py`. -/
structure User where
  id : Nat
  full_name : String
  role : RoleEnum
  email_verified_at : Option Nat
  local_enabled : Bool
  local_username : Option String
  local_password_hash : Option ArgonDigest
  google_sub : Option String
  google_email : Option String
  ms_oid : Option Nat
  ms_tid : Option Nat
  ms_email : Option String
  created_at : Nat
  updated_at : Nat
deriving DecidableEq, Repr

/-- Modelled from the spec: the computed `email` property of the
multi-identity `User` model (absent from the provided sources; its callers
in `app/services/auth.py` use `user.email` with the comment `Uses computed
property`). Spec section 3: derived `email` is the first non-null of
localUsername, googleEmail, msEmail — read-only, computed, never stored
(the migration drops the stored `email` column). -/
def User.email (u : User) : Option String :=
  match u.local_username with
  | some e => some e
  | none =>
    match u.google_email with
    | some e => some e
    | none => u.ms_email

/-- `RefreshTokenSession` row (`app/models/user.py`, fields per the
session rows created in `AuthService._create_auth_response`). -/
structure RefreshTokenSession where
  id : Nat
  user_id : Nat
  refresh_token_hash : TokenHash
  user_agent : Option String
  ip_address : Option String
  expires_at : Nat
  revoked_at : Option Nat
  created_at : Nat
deriving DecidableEq, Repr

/-- `PasswordResetToken` row (`app/models/user.py`). -/
structure PasswordResetToken where
  id : Nat
  user_id : Nat
  token_hash : TokenHash
  expires_at : Nat
  used_at : Option Nat
  created_at : Nat
deriving DecidableEq, Repr

/-- The durable store: the rows relevant to the verified operations.
`select(...).first()` is `List.find?` over the row list. -/
structure DBState where
  users : List User
  sessions : List RefreshTokenSession
  reset_tokens : List PasswordResetToken
deriving DecidableEq, Repr

/-- ORM update-and-commit of a user row: replace the row with this id. -/
def DBState.updateUser (st : DBState) (u : User) : DBState :=
  { st with users := st.users.map fun v => if v.id == u.id then u else v }

/-- ORM update-and-commit of a session row: replace the row with this id. -/
def DBState.updateSession (st : DBState) (s : RefreshTokenSession) : DBState :=
  { st with sessions := st.sessions.map fun v => if v.id == s.id then s else v }

/-- ORM update-and-commit of a reset-token row: replace the row with this id. -/
def DBState.updateResetToken (st : DBState) (t : PasswordResetToken) : DBState :=
  { st with reset_tokens := st.reset_tokens.map fun v => if v.id == t.id then t else v }

/-- Detail payload of an `HTTPException`: either a plain message or the
dict `message`/`errors` used for password-strength failures. -/
inductive ErrDetail where
  | msg (s : String)
  | passwordErrors (message : String) (errors : List String)
deriving DecidableEq, Repr

/-- The five-kind error taxonomy as surfaced by `HTTPException` status
codes: 400, 401, 403, 404, 409. -/
inductive HTTPError where
  | badRequest (detail : ErrDetail)
  | unauthorized (detail : String)
  | forbidden (detail : String)
  | notFound (detail : String)
  | conflict (detail : String)
deriving DecidableEq, Repr

/-- HTTP status code of each taxonomy member. -/
def HTTPError.status : HTTPError → Nat
  | .badRequest _ => 400
  | .unauthorized _ => 401
  | .forbidden _ => 403
  | .notFound _ => 404
  | .conflict _ => 409

/-- Outcome of a service call: an `HTTPException`, or — for code paths that
let a library exception escape uncaught (no surrounding handler in the
service) — the propagated Argon2 exception. -/
inductive AuthFail where
  | http (e : HTTPError)
  | uncaught (e : Argon2Error)
deriving DecidableEq, Repr

/-- Python truthiness of an optional string (`None` and `""` are falsy). -/
def truthyStr : Option String → Bool
  | some s => !s.data.isEmpty
  | none => false

/-- The database state after a call whose result carries the committed
state on success; an `HTTPException` raised before `commit` leaves the
store unchanged. -/
def committedState (st : DBState) : Except HTTPError DBState → DBState
  | .ok st' => st'
  | .error _ => st

/-- As `committedState`, for calls that also return a response value. -/
def committedStatePair {α : Type} (st : DBState) :
    Except HTTPError (DBState × α) → DBState
  | .ok (st', _) => st'
  | .error _ => st

/-- `RegisterDto` (`app/schemas/auth.py` lines 12-37): the `autoverify` and
`role` fields carry schema defaults `False` and `RoleEnum.GUEST`; `role` is
accepted directly from the (unauthenticated) caller. -/
structure RegisterDto where
  email : String
  password : String
  full_name : String
  autoverify : Bool := false
  role : RoleEnum := .guest
deriving DecidableEq, Repr

/-- `LoginDto` (`app/schemas/auth.py`). -/
structure LoginDto where
  email : String
  password : String
deriving DecidableEq, Repr

/-- `RegisteredUserInfo` (`app/schemas/auth.py`). -/
structure RegisteredUserInfo where
  id : Nat
  email : String
  full_name : String
  role : String
  email_verified : Bool
deriving DecidableEq, Repr

/-- `RegisterResponseDto` (`app/schemas/auth.py`). -/
structure RegisterResponseDto where
  user : RegisteredUserInfo
deriving DecidableEq, Repr

/-- `UserInfo` (`app/schemas/auth.py`). -/
structure UserInfo where
  id : Nat
  email : String
  full_name : String
  role : String
  email_verified : Bool
  email_verified_at : Option Nat
  local_username : Option String
  google_email : Option String
  ms_email : Option String
deriving DecidableEq, Repr

/-- `AuthResponseDto` (`app/schemas/auth.py`). -/
structure AuthResponseDto where
  access_token : Token
  refresh_token : Token
  user : UserInfo
deriving DecidableEq, Repr

/-- `AuthService._create_auth_response` (`app/services/auth.py` lines
836-881): resolve the derived email, issue the access token, persist a
session row (7-day expiry) whose stored hash is the hash of the refresh
token issued with the new session id, and build the response DTO. The
source inserts the row with a `""` placeholder hash and then updates it
with the issued token hash inside the same transaction; the embedding
records the committed row directly. `session_id` is the fresh `uuid4`. -/
def create_auth_response (now session_id : Nat) (st : DBState) (user : User)
    (user_agent ip_address : Option String) : DBState × AuthResponseDto :=
  let user_email := (User.email user).getD ""
  let access_token := generate_access_token now user.id user_email user.role
  let expires_at := now + 7 * 24 * 60 * 60
  let refresh_token := generate_refresh_token now user.id session_id
  let session_obj : RefreshTokenSession :=
    { id := session_id
      user_id := user.id
      refresh_token_hash := hash_token refresh_token
      user_agent := user_agent
      ip_address := ip_address
      expires_at := expires_at
      revoked_at := none
      created_at := now }
  ({ st with sessions := st.sessions ++ [session_obj] },
   { access_token := access_token
     refresh_token := refresh_token
     user :=
       { id := user.id
         email := user_email
         full_name := user.full_name
         role := user.role.value
         email_verified := user.email_verified_at.isSome
         email_verified_at := user.email_verified_at
         local_username := user.local_username
         google_email := user.google_email
         ms_email := user.ms_email } })

/-- `AuthService.register` (`app/services/auth.py` lines 47-122): normalize
the identifier, validate password strength against it, reject a claimed
username with `Conflict`, then create the user with a local identity block
and the caller-supplied `role` — no authorization check is performed on the
requested role. `new_user_id` is the fresh `uuid4`. -/
def register (now new_user_id : Nat) (st : DBState) (dto : RegisterDto) :
    Except HTTPError (DBState × RegisterResponseDto) :=
  let normalized_username := pyStrip (pyLower dto.email)
  let validation := validate_password_strength dto.password normalized_username
  if !validation.isValid then
    .error (.badRequest (.passwordErrors
      "Password does not meet security requirements" validation.errors))
  else
    match st.users.find? (fun u => u.local_username == some normalized_username) with
    | some _ => .error (.conflict "User with this username already exists")
    | none =>
      let password_hash := hash_password dto.password
      let new_user : User :=
        { id := new_user_id
          local_username := some normalized_username
          full_name := pyStrip dto.full_name
          local_password_hash := some password_hash
          local_enabled := true
          role := dto.role
          email_verified_at := if dto.autoverify then some now else none
          google_sub := none
          google_email := none
          ms_oid := none
          ms_tid := none
          ms_email := none
          created_at := now
          updated_at := now }
      .ok ({ st with users := st.users ++ [new_user] },
           { user :=
               { id := new_user.id
                 email := (User.email new_user).getD ""
                 full_name := new_user.full_name
                 role := new_user.role.value
                 email_verified := dto.autoverify } })

/-- `AuthService.login` (`app/services/auth.py` lines 124-217): lookup by
normalized local username; `401 Invalid credentials` when absent; `401
Local authentication is disabled for this user` when `local_enabled` is
false; `401 Invalid credentials` when no password hash is stored or the
password does not verify; `403` when the email is unverified; otherwise
issue a token pair via `_create_auth_response`. An Argon2 exception other
than `VerifyMismatchError` (malformed stored digest) escapes uncaught. -/
def login (now session_id : Nat) (st : DBState) (dto : LoginDto)
    (user_agent ip_address : Option String) :
    Except AuthFail (DBState × AuthResponseDto) :=
  let normalized_username := pyStrip (pyLower dto.email)
  match st.users.find? (fun u => u.local_username == some normalized_username) with
  | none => .error (.http (.unauthorized "Invalid credentials"))
  | some user =>
    if !user.local_enabled then
      .error (.http (.unauthorized "Local authentication is disabled for this user"))
    else
      match user.local_password_hash with
      | none => .error (.http (.unauthorized "Invalid credentials"))
      | some password_hash =>
        match verify_password password_hash dto.password with
        | .error e => .error (.uncaught e)
        | .ok is_valid =>
          if !is_valid then
            .error (.http (.unauthorized "Invalid credentials"))
          else if user.email_verified_at.isNone then
            .error (.http (.forbidden "Please verify your email address before logging in"))
          else
            .ok (create_auth_response now session_id st user user_agent ip_address)

/-- `AuthService.refresh_access_token` (`app/services/auth.py` lines
219-288): verify the refresh token signature (any failure is wrapped as
`401 Invalid refresh token`); hash the token and look up the session row —
`401` when absent, when `revoked_at` is set (reuse detection), or when
expired; look up the owner from the token `sub`; then mark the old session
revoked (commit) and issue a replacement pair via `_create_auth_response`.
`new_session_id` is the fresh `uuid4` for the replacement session. -/
def refresh_access_token (now new_session_id : Nat) (st : DBState)
    (refresh_token : Token) (user_agent ip_address : Option String) :
    Except HTTPError (DBState × AuthResponseDto) :=
  match verify_refresh_token now refresh_token with
  | .error _ => .error (.unauthorized "Invalid refresh token")
  | .ok payload =>
    match st.sessions.find?
        (fun s => s.refresh_token_hash == hash_token refresh_token) with
    | none => .error (.unauthorized "Invalid refresh token")
    | some session_obj =>
      if session_obj.revoked_at.isSome then
        .error (.unauthorized "Refresh token has been revoked")
      else if session_obj.expires_at < now then
        .error (.unauthorized "Refresh token has expired")
      else
        match st.users.find? (fun u => u.id == payload.sub) with
        | none => .error (.unauthorized "User not found")
        | some user =>
          .ok (create_auth_response now new_session_id
            (st.updateSession { session_obj with revoked_at := some now })
            user user_agent ip_address)

/-- `AuthService.reset_password` (`app/services/auth.py` lines 437-503):
look the token up by hash among unused reset tokens (`400` when absent),
`400` when expired, `400` when the owner is gone; validate the new password
against the owner derived email; then — in one commit — store the new
password hash, mark the token used, and set `revoked_at` on every refresh
session row belonging to the owner. -/
def reset_password (now : Nat) (st : DBState) (token : String)
    (new_password : String) : Except HTTPError DBState :=
  let token_hash := hash_secret token
  match st.reset_tokens.find? (fun t => t.token_hash == token_hash && t.used_at.isNone) with
  | none => .error (.badRequest (.msg "Invalid or expired reset token"))
  | some reset_token =>
    if reset_token.expires_at < now then
      .error (.badRequest (.msg "Reset token has expired"))
    else
      match st.users.find? (fun u => u.id == reset_token.user_id) with
      | none => .error (.badRequest (.msg "User not found"))
      | some user =>
        let user_email := (User.email user).getD ""
        let validation := validate_password_strength new_password user_email
        if !validation.isValid then
          .error (.badRequest (.passwordErrors
            "Password does not meet security requirements" validation.errors))
        else
          let password_hash := hash_password new_password
          let st1 := st.updateUser { user with local_password_hash := some password_hash }
          let st2 := st1.updateResetToken { reset_token with used_at := some now }
          let st3 := { st2 with sessions := st2.sessions.map fun s =>
            if s.user_id == user.id then { s with revoked_at := some now } else s }
          .ok st3

/-- Presence of a local identity block as tested throughout the source:
`user.local_enabled and user.local_username` (Python truthiness). -/
def hasLocalIdentity (u : User) : Bool :=
  u.local_enabled && truthyStr u.local_username

/-- Presence of a Google identity block: `bool(user.google_sub)`. -/
def hasGoogleIdentity (u : User) : Bool :=
  truthyStr u.google_sub

/-- Presence of a Microsoft identity block: `user.ms_oid and user.ms_tid`
(UUID values are always truthy when present). -/
def hasMicrosoftIdentity (u : User) : Bool :=
  u.ms_oid.isSome && u.ms_tid.isSome

/-- At least one identity block is present (the section-3 invariant). -/
def hasAnyIdentity (u : User) : Bool :=
  hasLocalIdentity u || hasGoogleIdentity u || hasMicrosoftIdentity u

/-- `AuthService.unlink_google_identity` (`app/services/auth.py` lines
733-782): `404` when the user is absent or Google is not linked; `400` when
neither a local identity (`local_enabled and local_username`, Python
truthiness) nor a Microsoft identity (`ms_oid and ms_tid`) remains;
otherwise clear the Google fields. -/
def unlink_google_identity (now : Nat) (st : DBState) (user_id : Nat) :
    Except HTTPError DBState :=
  match st.users.find? (fun u => u.id == user_id) with
  | none => .error (.notFound "User not found")
  | some user =>
    if !truthyStr user.google_sub then
      .error (.notFound "Google account is not linked")
    else
      if !(hasLocalIdentity user) && !(hasMicrosoftIdentity user) then
        .error (.badRequest (.msg
          "Cannot unlink Google account - user must have at least one identity (local or Microsoft)"))
      else
        .ok (st.updateUser
          { user with google_sub := none, google_email := none, updated_at := now })

/-- `AuthService.unlink_microsoft_identity` (`app/services/auth.py` lines
784-834): the mirror image of `unlink_google_identity`. -/
def unlink_microsoft_identity (now : Nat) (st : DBState) (user_id : Nat) :
    Except HTTPError DBState :=
  match st.users.find? (fun u => u.id == user_id) with
  | none => .error (.notFound "User not found")
  | some user =>
    if !(user.ms_oid.isSome && user.ms_tid.isSome) then
      .error (.notFound "Microsoft account is not linked")
    else
      if !(hasLocalIdentity user) && !(hasGoogleIdentity user) then
        .error (.badRequest (.msg
          "Cannot unlink Microsoft account - user must have at least one identity (local or Google)"))
      else
        .ok (st.updateUser
          { user with ms_oid := none, ms_tid := none, ms_email := none, updated_at := now })

/-- `get_current_user` (`app/api/deps/auth.py` lines 18-69): verify the
access token — `jwt.ExpiredSignatureError` surfaces as `401 Token has
expired`, `jwt.InvalidTokenError` as `401 Invalid token` — then load the
user from the token `sub` (`401 User not found` when gone). Modelled
tokens always carry a `sub`, so the payload-missing-sub branch is not
reachable in the embedding. -/
def get_current_user (now : Nat) (st : DBState) (token : Token) :
    Except HTTPError User :=
  match verify_access_token now token with
  | .error .expired => .error (.unauthorized "Token has expired")
  | .error .invalid => .error (.unauthorized "Invalid token")
  | .ok payload =>
    match st.users.find? (fun u => u.id == payload.sub) with
    | none => .error (.unauthorized "User not found")
    | some user => .ok user

/-- The `emailVerifiedAt` value of `UpdateUserDto`: the special string
`"now"`, some other string (rejected), an explicit datetime, or `null`. -/
inductive EmailVerifiedAtValue where
  | nowString
  | otherString (s : String)
  | timestamp (t : Nat)
  | null
deriving DecidableEq, Repr

/-- `UpdateUserDto` (`app/schemas/user.py`): every field optional;
`email_verified_at_set` models membership of `email_verified_at` in
pydantic `model_fields_set` (the handler only touches verification state
when the field was explicitly sent). -/
structure UpdateUserDto where
  email : Option String := none
  password : Option String := none
  full_name : Option String := none
  role : Option String := none
  email_verified_at_set : Bool := false
  email_verified_at : EmailVerifiedAtValue := .null
  unlink_local : Option Bool := none
deriving DecidableEq, Repr

/-- The `update_dto.email` block of `update_user` (`app/api/routes/admin.py`
lines 127-137): change the local username to the normalized value, `400`
when another user already holds it. -/
def apply_email_update (st : DBState) (target_id : Nat) (dto : UpdateUserDto)
    (user : User) : Except HTTPError User :=
  match dto.email with
  | none => .ok user
  | some e =>
    let normalized_username := pyStrip (pyLower e)
    match st.users.find?
        (fun u => u.local_username == some normalized_username && u.id != target_id) with
    | some _ => .error (.badRequest (.msg "Username already in use"))
    | none => .ok { user with local_username := some normalized_username }

/-- The `update_dto.password` block of `update_user` (lines 139-151):
validate strength against the target derived email, then store the new
hash. -/
def apply_password_update (dto : UpdateUserDto) (user : User) :
    Except HTTPError User :=
  match dto.password with
  | none => .ok user
  | some pw =>
    let user_email := (User.email user).getD ""
    let validation := validate_password_strength pw user_email
    if !validation.isValid then
      .error (.badRequest (.passwordErrors
        "Password does not meet security requirements" validation.errors))
    else
      .ok { user with local_password_hash := some (hash_password pw) }

/-- The `update_dto.role` block of `update_user` (lines 156-172): parse the
role string (`400` on `ValueError`), `403` when an Admin actor promotes to
sysadmin, else set the role. -/
def apply_role_update (current_user : User) (dto : UpdateUserDto) (user : User) :
    Except HTTPError User :=
  match dto.role with
  | none => .ok user
  | some roleStr =>
    match RoleEnum.fromString? roleStr with
    | none => .error (.badRequest (.msg ("Invalid role: " ++ roleStr)))
    | some new_role =>
      if current_user.role == .admin && new_role == .sysadmin then
        .error (.forbidden "Admins cannot promote users to sysadmin role")
      else
        .ok { user with role := new_role }

/-- The `email_verified_at` block of `update_user` (lines 174-186), entered
only when the field was explicitly sent. -/
def apply_email_verified_update (now : Nat) (dto : UpdateUserDto) (user : User) :
    Except HTTPError User :=
  if dto.email_verified_at_set then
    match dto.email_verified_at with
    | .nowString => .ok { user with email_verified_at := some now }
    | .otherString _ => .error (.badRequest (.msg
        "Invalid emailVerifiedAt value. Use \x27now\x27 or ISO 8601 datetime"))
    | .timestamp t => .ok { user with email_verified_at := some t }
    | .null => .ok { user with email_verified_at := none }
  else
    .ok user

/-- The `unlink_local` block of `update_user` (lines 188-209): `400` when
no Google or Microsoft identity would remain (checked first), `400` when
local is not linked, else clear the local identity block. -/
def apply_unlink_local (dto : UpdateUserDto) (user : User) :
    Except HTTPError User :=
  if dto.unlink_local == some true then
    if !(hasGoogleIdentity user) && !(hasMicrosoftIdentity user) then
      .error (.badRequest (.msg
        "Cannot unlink local account. You must have at least one other authentication method (Google or Microsoft) linked."))
    else if !user.local_enabled || !(truthyStr user.local_username) then
      .error (.badRequest (.msg "Local account is not linked"))
    else
      .ok { user with local_enabled := false, local_username := none,
                      local_password_hash := none }
  else
    .ok user

/-- The `update_dto.full_name` block of `update_user` (lines 153-154). -/
def apply_full_name_update (dto : UpdateUserDto) (user : User) : User :=
  match dto.full_name with
  | none => user
  | some fn => { user with full_name := fn }

/-- `update_user` (`app/api/routes/admin.py` lines 95-231): load the
target (`404`); `403` when an Admin actor touches a Sysadmin target; then
apply, in source order, the username, password, full-name, role,
`emailVerifiedAt` and unlink-local blocks above, stamp `updated_at` and
commit. The actor has already passed `require_role(ADMIN, SYSADMIN)`. -/
def update_user (now : Nat) (st : DBState) (current_user : User)
    (target_id : Nat) (dto : UpdateUserDto) :
    Except HTTPError (DBState × User) :=
  match st.users.find? (fun u => u.id == target_id) with
  | none => .error (.notFound "User not found")
  | some user0 =>
    if current_user.role == .admin && user0.role == .sysadmin then
      .error (.forbidden "Admins cannot modify sysadmin users")
    else
      match apply_email_update st target_id dto user0 with
      | .error e => .error e
      | .ok user1 =>
        match apply_password_update dto user1 with
        | .error e => .error e
        | .ok user2 =>
          match apply_role_update current_user dto (apply_full_name_update dto user2) with
          | .error e => .error e
          | .ok user4 =>
            match apply_email_verified_update now dto user4 with
            | .error e => .error e
            | .ok user5 =>
              match apply_unlink_local dto user5 with
              | .error e => .error e
              | .ok user6 =>
                .ok (st.updateUser { user6 with updated_at := now },
                     { user6 with updated_at := now })

/-- `MergedIdentitiesDto` (`app/schemas/user.py`). -/
structure MergedIdentities where
  localIdent : Bool := false
  google : Bool := false
  microsoft : Bool := false
deriving DecidableEq, Repr

/-- `MergeAccountsResponseDto` (`app/schemas/user.py`). -/
structure MergeAccountsResponse where
  message : String
  destination_user_id : Nat
  merged_identities : MergedIdentities
deriving DecidableEq, Repr

/-- The `409` detail string built by `merge_users` from the conflict list. -/
def merge_conflict_detail (conflicts : List String) : String :=
  "Cannot merge accounts - overlapping identities: "
    ++ String.intercalate ", " conflicts
    ++ ". Both users have the following identity types linked."

/-- The overlap list computed by `merge_users` (lines 330-348): one entry
per provider whose identity block is present on both sides, in source
order local, google, microsoft. -/
def merge_conflicts (source_user destination_user : User) : List String :=
  (if hasLocalIdentity source_user && hasLocalIdentity destination_user
    then ["local"] else [])
  ++ (if hasGoogleIdentity source_user && hasGoogleIdentity destination_user
    then ["google"] else [])
  ++ (if hasMicrosoftIdentity source_user && hasMicrosoftIdentity destination_user
    then ["microsoft"] else [])

/-- `merge_users` (`app/api/routes/admin.py` lines 288-417): `400` when
source equals destination; load both (`404` per side); compute the
per-provider overlap and fail `409` listing every overlapping provider
before any mutation; otherwise copy each provider block present only on
the source onto the destination, adopt the source email verification when
the destination was unverified, commit the destination and delete the
source row. The actor has already passed `require_role(SYSADMIN)`. -/
def merge_users (now : Nat) (st : DBState)
    (source_user_id destination_user_id : Nat) :
    Except HTTPError (DBState × MergeAccountsResponse) :=
  if source_user_id == destination_user_id then
    .error (.badRequest (.msg "Source and destination users must be different"))
  else
    match st.users.find? (fun u => u.id == source_user_id) with
    | none => .error (.notFound ("Source user not found: " ++ toString source_user_id))
    | some source_user =>
      match st.users.find? (fun u => u.id == destination_user_id) with
      | none =>
        .error (.notFound ("Destination user not found: " ++ toString destination_user_id))
      | some destination_user =>
        let source_has_local := hasLocalIdentity source_user
        let dest_has_local := hasLocalIdentity destination_user
        let source_has_google := hasGoogleIdentity source_user
        let dest_has_google := hasGoogleIdentity destination_user
        let source_has_microsoft := hasMicrosoftIdentity source_user
        let dest_has_microsoft := hasMicrosoftIdentity destination_user
        let conflicts := merge_conflicts source_user destination_user
        if !conflicts.isEmpty then
          .error (.conflict (merge_conflict_detail conflicts))
        else
          let d1 := if source_has_local && !dest_has_local then
              { destination_user with
                  local_enabled := source_user.local_enabled
                  local_username := source_user.local_username
                  local_password_hash := source_user.local_password_hash }
            else destination_user
          let d2 := if source_has_google && !dest_has_google then
              { d1 with google_sub := source_user.google_sub
                        google_email := source_user.google_email }
            else d1
          let d3 := if source_has_microsoft && !dest_has_microsoft then
              { d2 with ms_oid := source_user.ms_oid
                        ms_tid := source_user.ms_tid
                        ms_email := source_user.ms_email }
            else d2
          let d4 := if destination_user.email_verified_at.isNone
                       && source_user.email_verified_at.isSome then
              { d3 with email_verified_at := source_user.email_verified_at }
            else d3
          let d5 := { d4 with updated_at := now }
          let merged_identities : MergedIdentities :=
            { localIdent := source_has_local && !dest_has_local
              google := source_has_google && !dest_has_google
              microsoft := source_has_microsoft && !dest_has_microsoft }
          let st1 := st.updateUser d5
          let st2 := { st1 with users := st1.users.filter fun u => u.id != source_user.id }
          .ok (st2,
            { message := "Accounts merged successfully"
              destination_user_id := destination_user.id
              merged_identities := merged_identities })

/-! ## Theorems -/

/-- C6: the claim says `verify(digest, plaintext)` is total on the digest
argument and returns `false` on a malformed digest. On the code,
`PasswordService.verify_password` catches only `VerifyMismatchError`, so
the `InvalidHashError` an Argon2 `verify` raises on a malformed digest
escapes uncaught; on well-formed digests the function does return `true`
exactly on a match and `false` otherwise. This theorem evaluates the code
at the failing input and at the two well-formed cases. -/
theorem verify_password_malformed_raises :
    verify_password (.malformed "not-an-argon2-hash") "secret"
      = .error .invalidHash ∧
    verify_password (hash_password "secret") "secret" = .ok true ∧
    verify_password (hash_password "secret") "other" = .ok false :=
  ⟨rfl, rfl, rfl⟩

/-- C9: the exposed email of an auth response is the first non-null of
localUsername, googleEmail, msEmail (defaulted to `""` by the `or ""` at
the call site), and the derivation depends on exactly those three columns:
any two user records agreeing on them have the same derived email, whatever
their other stored fields are — the email is computed on read, not a
stored column of its own. -/
theorem email_is_derived (now sid : Nat) (st : DBState) (u : User)
    (ua ip : Option String) :
    ((create_auth_response now sid st u ua ip).2.user.email
      = (match u.local_username with
         | some e => some e
         | none =>
           match u.google_email with
           | some e => some e
           | none => u.ms_email).getD "") ∧
    (∀ v : User, v.local_username = u.local_username →
      v.google_email = u.google_email → v.ms_email = u.ms_email →
      User.email v = User.email u) := by
  refine ⟨rfl, fun v h1 h2 h3 => ?_⟩
  simp [User.email, h1, h2, h3]

def c9u : User :=
  { id := 1, full_name := "A", role := .guest, email_verified_at := none,
    local_enabled := false, local_username := none,
    local_password_hash := none,
    google_sub := some "g-sub", google_email := some "a@gmail.com",
    ms_oid := none, ms_tid := none, ms_email := none,
    created_at := 0, updated_at := 0 }

def c9v : User :=
  { c9u with id := 2, full_name := "B", role := .sysadmin, updated_at := 9 }

/-- Witness for C9 at concrete records differing in id, name, role and
timestamps but agreeing on the three derivation columns. -/
theorem email_is_derived_witness :
    User.email c9v = User.email c9u :=
  (email_is_derived 0 1 ⟨[], [], []⟩ c9u none none).2 c9v rfl rfl rfl

/-- C7 counterexample: the claim says the surfaced error is the same
whether the token expired or was malformed. For access tokens,
`get_current_user` surfaces `401 Token has expired` for an expired token
but `401 Invalid token` for a forged one — two different messages, so the
response does reveal which failure kind occurred. -/
theorem access_token_failure_message_distinguishes :
    get_current_user 10 ⟨[], [], []⟩ (.access 1 "e" .guest 0 5)
      = .error (.unauthorized "Token has expired") ∧
    get_current_user 10 ⟨[], [], []⟩ (.forged "junk")
      = .error (.unauthorized "Invalid token") ∧
    ("Token has expired" : String) ≠ "Invalid token" :=
  ⟨rfl, rfl, by decide⟩

/-- C7 amended: every token-verification failure surfaces as `Unauthorized`
(status 401). The refresh path wraps both failure kinds in the single
generic message `Invalid refresh token`; the access path in
`get_current_user` keeps 401 but distinguishes `Token has expired` from
`Invalid token` in the message. -/
theorem token_failures_surface_unauthorized (now sid : Nat) (st : DBState)
    (t : Token) (ua ip : Option String) :
    (∀ e, verify_access_token now t = .error e →
      get_current_user now st t = .error (.unauthorized
        (if e = .expired then "Token has expired" else "Invalid token"))) ∧
    (∀ e, verify_refresh_token now t = .error e →
      refresh_access_token now sid st t ua ip
        = .error (.unauthorized "Invalid refresh token")) := by
  constructor
  · intro e he
    cases e <;> simp [get_current_user, he]
  · intro e he
    simp [refresh_access_token, he]

/-- Witness for C7 amended: an expired refresh token surfaces as the
generic `401 Invalid refresh token`. -/
theorem token_failures_surface_unauthorized_witness :
    refresh_access_token 10 1 ⟨[], [], []⟩ (.refresh 1 2 0 5) none none
      = .error (.unauthorized "Invalid refresh token") :=
  (token_failures_surface_unauthorized 10 1 ⟨[], [], []⟩ (.refresh 1 2 0 5)
    none none).2 .expired rfl

def c3User : User :=
  { id := 1, full_name := "A", role := .guest, email_verified_at := some 0,
    local_enabled := false, local_username := some "a@x.com",
    local_password_hash := some (hash_password "Passw0rd!"),
    google_sub := some "g-sub", google_email := some "a@gmail.com",
    ms_oid := none, ms_tid := none, ms_email := none,
    created_at := 0, updated_at := 0 }

def c3St : DBState := { users := [c3User], sessions := [], reset_tokens := [] }

/-- C3 counterexample: the claim says all three pre-verification failures
use the single uniform message `Invalid credentials`. For a user whose
local auth is disabled, `login` fails `401` with the distinct message
`Local authentication is disabled for this user`, revealing which case
occurred. -/
theorem login_disabled_message_not_uniform :
    login 0 1 c3St { email := "a@x.com", password := "Passw0rd!" } none none
      = .error (.http (.unauthorized "Local authentication is disabled for this user")) ∧
    (Except.error (.http (.unauthorized "Local authentication is disabled for this user"))
        : Except AuthFail (DBState × AuthResponseDto))
      ≠ .error (.http (.unauthorized "Invalid credentials")) := by
  refine ⟨rfl, fun h => ?_⟩
  simp at h

/-- C3 amended: `login` fails `401` with the uniform message
`Invalid credentials` when the identifier is not found, when no password
hash is set, and when the password does not verify; but the
local-auth-disabled case fails `401` with the distinct message
`Local authentication is disabled for this user`. -/
theorem login_uniform_message_except_disabled (now sid : Nat) (st : DBState)
    (dto : LoginDto) (ua ip : Option String) :
    (st.users.find? (fun u => u.local_username == some (pyStrip (pyLower dto.email))) = none →
      login now sid st dto ua ip = .error (.http (.unauthorized "Invalid credentials"))) ∧
    (∀ user,
      st.users.find? (fun u => u.local_username == some (pyStrip (pyLower dto.email)))
        = some user →
      (user.local_enabled = false →
        login now sid st dto ua ip
          = .error (.http (.unauthorized "Local authentication is disabled for this user"))) ∧
      (user.local_enabled = true → user.local_password_hash = none →
        login now sid st dto ua ip
          = .error (.http (.unauthorized "Invalid credentials"))) ∧
      (∀ ph, user.local_enabled = true → user.local_password_hash = some ph →
        verify_password ph dto.password = .ok false →
        login now sid st dto ua ip
          = .error (.http (.unauthorized "Invalid credentials")))) := by
  refine ⟨fun h => ?_,
    fun user hu => ⟨fun hd => ?_, fun he hn => ?_, fun ph he hp hv => ?_⟩⟩
  · simp [login, h]
  · simp [login, hu, hd]
  · simp [login, hu, he, hn]
  · simp [login, hu, he, hp, hv]

/-- Witness for C3 amended: unknown identifier at a concrete empty store. -/
theorem login_uniform_message_except_disabled_witness :
    login 0 1 ⟨[], [], []⟩ { email := "ghost@x.com", password := "pw" } none none
      = .error (.http (.unauthorized "Invalid credentials")) :=
  (login_uniform_message_except_disabled 0 1 ⟨[], [], []⟩
    { email := "ghost@x.com", password := "pw" } none none).1 rfl

/-- C10: `register` trusts the caller-supplied role. For any requested role
(guest, admin or sysadmin alike), registering an unclaimed identifier with
a valid password succeeds and stores exactly that role, with no
authorization check anywhere on the path; the schema default when the
field is omitted is guest. -/
theorem register_accepts_caller_role (now nid : Nat) (st : DBState)
    (dto : RegisterDto)
    (hvalid : (validate_password_strength dto.password
        (pyStrip (pyLower dto.email))).isValid = true)
    (hfree : st.users.find?
        (fun u => u.local_username == some (pyStrip (pyLower dto.email))) = none) :
    (∃ st' resp, register now nid st dto = .ok (st', resp) ∧
      (∃ u, u ∈ st'.users ∧ u.id = nid ∧ u.role = dto.role) ∧
      resp.user.role = dto.role.value) ∧
    (∀ e p f, ({ email := e, password := p, full_name := f } : RegisterDto).role
      = .guest) := by
  constructor
  · simp only [register, hvalid, hfree, Bool.not_true, Bool.false_eq_true,
      if_false]
    refine ⟨_, _, rfl,
      ⟨{ id := nid
         local_username := some (pyStrip (pyLower dto.email))
         full_name := pyStrip dto.full_name
         local_password_hash := some (hash_password dto.password)
         local_enabled := true
         role := dto.role
         email_verified_at := if dto.autoverify then some now else none
         google_sub := none
         google_email := none
         ms_oid := none
         ms_tid := none
         ms_email := none
         created_at := now
         updated_at := now }, by simp, rfl, rfl⟩, rfl⟩
  · intro e p f
    rfl

/-- Witness for C10: an unauthenticated registration requesting the
sysadmin role at an empty store succeeds with role sysadmin. -/
theorem register_accepts_caller_role_witness :
    (∃ st' resp,
      register 0 7 ⟨[], [], []⟩
        { email := "root@x.com", password := "Str0ngPass", full_name := "R",
          autoverify := true, role := .sysadmin } = .ok (st', resp) ∧
      (∃ u, u ∈ st'.users ∧ u.id = 7 ∧ u.role = .sysadmin) ∧
      resp.user.role = RoleEnum.value .sysadmin) ∧
    (∀ e p f, ({ email := e, password := p, full_name := f } : RegisterDto).role
      = .guest) :=
  register_accepts_caller_role 0 7 ⟨[], [], []⟩
    { email := "root@x.com", password := "Str0ngPass", full_name := "R",
      autoverify := true, role := .sysadmin } (by decide) rfl

def promoteDto : UpdateUserDto := { role := some "sysadmin" }

/-- C8: a PATCH that sets the target role to sysadmin fails `403` when the
actor role is exactly Admin (whatever the target current role is, and with
the store unchanged), and the identical request succeeds when the actor
role is Sysadmin, setting the target role to sysadmin. -/
theorem role_escalation_guard (now : Nat) (st : DBState) (actor : User)
    (tid : Nat) (target : User)
    (htarget : st.users.find? (fun u => u.id == tid) = some target) :
    (actor.role = .admin →
      (∃ m, update_user now st actor tid promoteDto = .error (.forbidden m)) ∧
      committedStatePair st (update_user now st actor tid promoteDto) = st) ∧
    (actor.role = .sysadmin →
      ∃ st' u', update_user now st actor tid promoteDto = .ok (st', u') ∧
        u'.role = .sysadmin) := by
  constructor
  · intro ha
    by_cases hr : target.role = .sysadmin
    · constructor
      · exact ⟨"Admins cannot modify sysadmin users",
          by simp [update_user, htarget, ha, hr]⟩
      · simp [committedStatePair, update_user, htarget, ha, hr]
    · constructor
      · exact ⟨"Admins cannot promote users to sysadmin role",
          by simp [update_user, htarget, ha, hr, promoteDto, apply_email_update,
            apply_password_update, apply_full_name_update, apply_role_update,
            RoleEnum.fromString?]⟩
      · simp [committedStatePair, update_user, htarget, ha, hr, promoteDto,
          apply_email_update, apply_password_update, apply_full_name_update,
          apply_role_update, RoleEnum.fromString?]
  · intro ha
    refine ⟨st.updateUser { target with role := .sysadmin, updated_at := now },
      { target with role := .sysadmin, updated_at := now }, ?_, rfl⟩
    simp [update_user, htarget, ha, promoteDto, apply_email_update,
      apply_password_update, apply_full_name_update, apply_role_update,
      apply_email_verified_update, apply_unlink_local, RoleEnum.fromString?]

def c8Target : User :=
  { id := 3, full_name := "T", role := .guest, email_verified_at := some 0,
    local_enabled := true, local_username := some "t@x.com",
    local_password_hash := some (hash_password "pw"),
    google_sub := none, google_email := none,
    ms_oid := none, ms_tid := none, ms_email := none,
    created_at := 0, updated_at := 0 }

def c8Admin : User := { c8Target with id := 4, role := .admin }

def c8Sysadmin : User := { c8Target with id := 5, role := .sysadmin }

def c8St : DBState := { users := [c8Target], sessions := [], reset_tokens := [] }

/-- Witness for C8 at a concrete store: the Admin actor is refused with the
store unchanged, the Sysadmin actor succeeds. -/
theorem role_escalation_guard_witness :
    ((∃ m, update_user 1 c8St c8Admin 3 promoteDto = .error (.forbidden m)) ∧
      committedStatePair c8St (update_user 1 c8St c8Admin 3 promoteDto) = c8St) ∧
    (∃ st' u', update_user 1 c8St c8Sysadmin 3 promoteDto = .ok (st', u') ∧
      u'.role = .sysadmin) :=
  ⟨(role_escalation_guard 1 c8St c8Admin 3 c8Target rfl).1 rfl,
   (role_escalation_guard 1 c8St c8Sysadmin 3 c8Target rfl).2 rfl⟩

/-- C4: for distinct existing users, `merge_users` fails `409` whenever any
provider identity block is present on both sides; the conflict detail is
built from the overlap list, which contains a provider exactly when that
provider overlaps (so every overlapping provider is listed); and on that
failure the store is unchanged — no partial merge. -/
theorem merge_conflict_all_or_nothing (now : Nat) (st : DBState)
    (sid did : Nat) (src dst : User)
    (hne : (sid == did) = false)
    (hsrc : st.users.find? (fun u => u.id == sid) = some src)
    (hdst : st.users.find? (fun u => u.id == did) = some dst)
    (hov : ((hasLocalIdentity src && hasLocalIdentity dst)
        || (hasGoogleIdentity src && hasGoogleIdentity dst)
        || (hasMicrosoftIdentity src && hasMicrosoftIdentity dst)) = true) :
    merge_users now st sid did
      = .error (.conflict (merge_conflict_detail (merge_conflicts src dst))) ∧
    ("local" ∈ merge_conflicts src dst
      ↔ (hasLocalIdentity src && hasLocalIdentity dst) = true) ∧
    ("google" ∈ merge_conflicts src dst
      ↔ (hasGoogleIdentity src && hasGoogleIdentity dst) = true) ∧
    ("microsoft" ∈ merge_conflicts src dst
      ↔ (hasMicrosoftIdentity src && hasMicrosoftIdentity dst) = true) ∧
    committedStatePair st (merge_users now st sid did) = st := by
  have hconf : (merge_conflicts src dst).isEmpty = false := by
    cases hl : hasLocalIdentity src && hasLocalIdentity dst <;>
      cases hg : hasGoogleIdentity src && hasGoogleIdentity dst <;>
        cases hm : hasMicrosoftIdentity src && hasMicrosoftIdentity dst <;>
          simp_all [merge_conflicts]
  have hmain : merge_users now st sid did
      = .error (.conflict (merge_conflict_detail (merge_conflicts src dst))) := by
    simp [merge_users, hne, hsrc, hdst, hconf]
  refine ⟨hmain, ?_, ?_, ?_, by simp [committedStatePair, hmain]⟩
  · cases hl : hasLocalIdentity src && hasLocalIdentity dst <;>
      cases hg : hasGoogleIdentity src && hasGoogleIdentity dst <;>
        cases hm : hasMicrosoftIdentity src && hasMicrosoftIdentity dst <;>
          simp_all [merge_conflicts]
  · cases hl : hasLocalIdentity src && hasLocalIdentity dst <;>
      cases hg : hasGoogleIdentity src && hasGoogleIdentity dst <;>
        cases hm : hasMicrosoftIdentity src && hasMicrosoftIdentity dst <;>
          simp_all [merge_conflicts]
  · cases hl : hasLocalIdentity src && hasLocalIdentity dst <;>
      cases hg : hasGoogleIdentity src && hasGoogleIdentity dst <;>
        cases hm : hasMicrosoftIdentity src && hasMicrosoftIdentity dst <;>
          simp_all [merge_conflicts]

def c4Src : User :=
  { id := 1, full_name := "S", role := .guest, email_verified_at := some 0,
    local_enabled := true, local_username := some "s@x.com",
    local_password_hash := some (hash_password "pwS"),
    google_sub := none, google_email := none,
    ms_oid := none, ms_tid := none, ms_email := none,
    created_at := 0, updated_at := 0 }

def c4Dst : User :=
  { c4Src with
      id := 2
      full_name := "D"
      local_username := some "d@x.com"
      local_password_hash := some (hash_password "pwD") }

def c4St : DBState := { users := [c4Src, c4Dst], sessions := [], reset_tokens := [] }

/-- Witness for C4: two users who both carry a local identity; the merge
fails `409` listing `local` and leaves the store unchanged. -/
theorem merge_conflict_all_or_nothing_witness :
    merge_users 1 c4St 1 2
      = .error (.conflict (merge_conflict_detail (merge_conflicts c4Src c4Dst))) ∧
    ("local" ∈ merge_conflicts c4Src c4Dst
      ↔ (hasLocalIdentity c4Src && hasLocalIdentity c4Dst) = true) ∧
    ("google" ∈ merge_conflicts c4Src c4Dst
      ↔ (hasGoogleIdentity c4Src && hasGoogleIdentity c4Dst) = true) ∧
    ("microsoft" ∈ merge_conflicts c4Src c4Dst
      ↔ (hasMicrosoftIdentity c4Src && hasMicrosoftIdentity c4Dst) = true) ∧
    committedStatePair c4St (merge_users 1 c4St 1 2) = c4St :=
  merge_conflict_all_or_nothing 1 c4St 1 2 c4Src c4Dst rfl rfl rfl rfl

/-- When the `unlink_local` block runs and succeeds, the resulting user
still carries a Google or Microsoft identity, hence at least one block. -/
lemma apply_unlink_local_ok_hasAny (dto : UpdateUserDto) (u u' : User)
    (hd : dto.unlink_local = some true)
    (h : apply_unlink_local dto u = .ok u') :
    hasAnyIdentity u' = true := by
  unfold apply_unlink_local at h
  split at h
  case isTrue hcond =>
    split at h
    · exact absurd h (by simp)
    case isFalse hguard =>
      split at h
      · exact absurd h (by simp)
      case isFalse hlink =>
        injection h with h
        subst h
        have hor : hasGoogleIdentity u = true ∨ hasMicrosoftIdentity u = true := by
          rcases Bool.eq_false_or_eq_true (hasGoogleIdentity u) with h1 | h1
          · exact Or.inl h1
          · rcases Bool.eq_false_or_eq_true (hasMicrosoftIdentity u) with h2 | h2
            · exact Or.inr h2
            · exact absurd (by simp [h1, h2]) hguard
        rcases hor with h1 | h1
        · simp only [hasGoogleIdentity] at h1
          simp [hasAnyIdentity, hasGoogleIdentity, h1]
        · simp only [hasMicrosoftIdentity] at h1
          simp [hasAnyIdentity, hasMicrosoftIdentity, h1]
  case isFalse hcond =>
    exact absurd (by simp [hd]) hcond

/-- C5: no unlink operation strips the last identity block. For a user
whose only block is the targeted one, `unlink_google_identity`,
`unlink_microsoft_identity` and the admin `unlink_local` path fail `400`
(the other two blocks having been checked) with the store unchanged; and
every successful unlink leaves the affected user with at least one
identity block. -/
theorem unlink_keeps_at_least_one_identity (now : Nat) (st : DBState)
    (uid : Nat) (actor : User) (dto : UpdateUserDto) :
    (∀ u, st.users.find? (fun v => v.id == uid) = some u →
      hasGoogleIdentity u = true → hasLocalIdentity u = false →
      hasMicrosoftIdentity u = false →
      unlink_google_identity now st uid = .error (.badRequest (.msg
        "Cannot unlink Google account - user must have at least one identity (local or Microsoft)")) ∧
      committedState st (unlink_google_identity now st uid) = st) ∧
    (∀ u, st.users.find? (fun v => v.id == uid) = some u →
      hasMicrosoftIdentity u = true → hasLocalIdentity u = false →
      hasGoogleIdentity u = false →
      unlink_microsoft_identity now st uid = .error (.badRequest (.msg
        "Cannot unlink Microsoft account - user must have at least one identity (local or Google)")) ∧
      committedState st (unlink_microsoft_identity now st uid) = st) ∧
    (∀ u, st.users.find? (fun v => v.id == uid) = some u →
      (actor.role == RoleEnum.admin && u.role == RoleEnum.sysadmin) = false →
      hasGoogleIdentity u = false → hasMicrosoftIdentity u = false →
      update_user now st actor uid { unlink_local := some true }
        = .error (.badRequest (.msg
          "Cannot unlink local account. You must have at least one other authentication method (Google or Microsoft) linked.")) ∧
      committedStatePair st
        (update_user now st actor uid { unlink_local := some true }) = st) ∧
    (∀ st', unlink_google_identity now st uid = .ok st' →
      ∀ u', u' ∈ st'.users → u'.id = uid → hasAnyIdentity u' = true) ∧
    (∀ st', unlink_microsoft_identity now st uid = .ok st' →
      ∀ u', u' ∈ st'.users → u'.id = uid → hasAnyIdentity u' = true) ∧
    (∀ st' u', dto.unlink_local = some true →
      update_user now st actor uid dto = .ok (st', u') →
      hasAnyIdentity u' = true) := by
  refine ⟨?_, ?_, ?_, ?_, ?_, ?_⟩
  · intro u hu hg hl hm
    simp only [hasGoogleIdentity] at hg
    have hmain : unlink_google_identity now st uid = .error (.badRequest (.msg
        "Cannot unlink Google account - user must have at least one identity (local or Microsoft)")) := by
      simp [unlink_google_identity, hu, hg, hl, hm]
    exact ⟨hmain, by simp [committedState, hmain]⟩
  · intro u hu hm hl hg
    simp only [hasMicrosoftIdentity] at hm
    have hmain : unlink_microsoft_identity now st uid = .error (.badRequest (.msg
        "Cannot unlink Microsoft account - user must have at least one identity (local or Google)")) := by
      simp [unlink_microsoft_identity, hu, hm, hl, hg]
    exact ⟨hmain, by simp [committedState, hmain]⟩
  · intro u hu hra hg hm
    have hmain : update_user now st actor uid { unlink_local := some true }
        = .error (.badRequest (.msg
          "Cannot unlink local account. You must have at least one other authentication method (Google or Microsoft) linked.")) := by
      simp [update_user, hu, hra, apply_email_update, apply_password_update,
        apply_full_name_update, apply_role_update, apply_email_verified_update,
        apply_unlink_local, hg, hm]
    exact ⟨hmain, by simp [committedStatePair, hmain]⟩
  · intro st' h u' hmem hid
    unfold unlink_google_identity at h
    split at h
    · exact absurd h (by simp)
    case _ u hu =>
      split at h
      · exact absurd h (by simp)
      case isFalse hsub =>
        split at h
        · exact absurd h (by simp)
        case isFalse hguard =>
          have hpu : (u.id == uid) = true := by simpa using List.find?_some hu
          injection h with h
          subst h
          have hor : hasLocalIdentity u = true ∨ hasMicrosoftIdentity u = true := by
            rcases Bool.eq_false_or_eq_true (hasLocalIdentity u) with h1 | h1
            · exact Or.inl h1
            · rcases Bool.eq_false_or_eq_true (hasMicrosoftIdentity u) with h2 | h2
              · exact Or.inr h2
              · exact absurd (by simp [h1, h2]) hguard
          simp only [DBState.updateUser] at hmem
          rcases List.mem_map.mp hmem with ⟨v, hv, rfl⟩
          by_cases hvid : (v.id == u.id) = true
          · simp only [hvid, if_true]
            rcases hor with h1 | h1
            · simp only [hasLocalIdentity] at h1
              simp [hasAnyIdentity, hasLocalIdentity, h1]
            · simp only [hasMicrosoftIdentity] at h1
              simp [hasAnyIdentity, hasMicrosoftIdentity, h1]
          · simp [hvid] at hid
            have hid2 : u.id = uid := by simpa using hpu
            exact absurd (by simp [hid, hid2] : (v.id == u.id) = true) hvid
  · intro st' h u' hmem hid
    unfold unlink_microsoft_identity at h
    split at h
    · exact absurd h (by simp)
    case _ u hu =>
      split at h
      · exact absurd h (by simp)
      case isFalse hsub =>
        split at h
        · exact absurd h (by simp)
        case isFalse hguard =>
          have hpu : (u.id == uid) = true := by simpa using List.find?_some hu
          injection h with h
          subst h
          have hor : hasLocalIdentity u = true ∨ hasGoogleIdentity u = true := by
            rcases Bool.eq_false_or_eq_true (hasLocalIdentity u) with h1 | h1
            · exact Or.inl h1
            · rcases Bool.eq_false_or_eq_true (hasGoogleIdentity u) with h2 | h2
              · exact Or.inr h2
              · exact absurd (by simp [h1, h2]) hguard
          simp only [DBState.updateUser] at hmem
          rcases List.mem_map.mp hmem with ⟨v, hv, rfl⟩
          by_cases hvid : (v.id == u.id) = true
          · simp only [hvid, if_true]
            rcases hor with h1 | h1
            · simp only [hasLocalIdentity] at h1
              simp [hasAnyIdentity, hasLocalIdentity, h1]
            · simp only [hasGoogleIdentity] at h1
              simp [hasAnyIdentity, hasGoogleIdentity, h1]
          · simp [hvid] at hid
            have hid2 : u.id = uid := by simpa using hpu
            exact absurd (by simp [hid, hid2] : (v.id == u.id) = true) hvid
  · intro st' u' hd h
    unfold update_user at h
    split at h
    · exact absurd h (by simp)
    case _ u0 hu0 =>
      split at h
      · exact absurd h (by simp)
      case isFalse hrole =>
        split at h
        · exact absurd h (by simp)
        case _ u1 h1 =>
          split at h
          · exact absurd h (by simp)
          case _ u2 h2 =>
            split at h
            · exact absurd h (by simp)
            case _ u4 h4 =>
              split at h
              · exact absurd h (by simp)
              case _ u5 h5 =>
                split at h
                · exact absurd h (by simp)
                case _ u6 h6 =>
                  have hAny := apply_unlink_local_ok_hasAny dto u5 u6 hd h6
                  have hu6 : u' = { u6 with updated_at := now } := by
                    simp only [Except.ok.injEq, Prod.mk.injEq] at h
                    exact h.2.symm
                  subst hu6
                  simpa [hasAnyIdentity, hasLocalIdentity, hasGoogleIdentity,
                    hasMicrosoftIdentity] using hAny

def c5User : User :=
  { id := 1, full_name := "G", role := .guest, email_verified_at := some 0,
    local_enabled := false, local_username := none,
    local_password_hash := none,
    google_sub := some "g-sub", google_email := some "g@gmail.com",
    ms_oid := none, ms_tid := none, ms_email := none,
    created_at := 0, updated_at := 0 }

def c5St : DBState := { users := [c5User], sessions := [], reset_tokens := [] }

/-- Witness for C5: a user whose only identity block is Google; unlinking
it fails `400` and leaves the store unchanged. -/
theorem unlink_keeps_at_least_one_identity_witness :
    unlink_google_identity 1 c5St 1 = .error (.badRequest (.msg
      "Cannot unlink Google account - user must have at least one identity (local or Microsoft)")) ∧
    committedState c5St (unlink_google_identity 1 c5St 1) = c5St :=
  (unlink_keeps_at_least_one_identity 1 c5St 1 c5User {}).1
    c5User rfl rfl rfl rfl

/-- The state committed by a successful `reset_password`: the owner row
carries the new hash, the reset-token row is marked used, and every
session row of the owner is marked revoked. -/
def reset_password_post (now : Nat) (st : DBState) (user : User)
    (rt : PasswordResetToken) (newpw : String) : DBState :=
  { users := st.users.map fun v =>
      if v.id == user.id then
        { user with local_password_hash := some (hash_password newpw) }
      else v
    sessions := st.sessions.map fun s =>
      if s.user_id == user.id then { s with revoked_at := some now } else s
    reset_tokens := st.reset_tokens.map fun v =>
      if v.id == rt.id then { rt with used_at := some now } else v }

/-- C2: for a stored, unused, unexpired reset token and a strong-enough new
password, `reset_password` succeeds in one commit that stores the new
password hash on the owner, marks the token used, and sets `revoked_at` on
every refresh session belonging to the owner — after which any refresh
token whose session lookup lands on a session of that owner fails rotation
with `401`. -/
theorem reset_password_revokes_all_sessions (now : Nat) (st : DBState)
    (tok newpw : String) (rt : PasswordResetToken) (user : User)
    (hfind : st.reset_tokens.find?
        (fun t => t.token_hash == hash_secret tok && t.used_at.isNone) = some rt)
    (hexp : ¬ rt.expires_at < now)
    (huser : st.users.find? (fun u => u.id == rt.user_id) = some user)
    (hvalid : (validate_password_strength newpw
        ((User.email user).getD "")).isValid = true) :
    ∃ st', reset_password now st tok newpw = .ok st' ∧
      (∃ u', u' ∈ st'.users ∧ u'.id = user.id ∧
        u'.local_password_hash = some (hash_password newpw)) ∧
      (∃ t', t' ∈ st'.reset_tokens ∧ t'.id = rt.id ∧ t'.used_at = some now) ∧
      (∀ s, s ∈ st'.sessions → s.user_id = user.id → s.revoked_at = some now) ∧
      (∀ now2 sid2 ua ip (t : Token) s,
        st'.sessions.find?
          (fun sess => sess.refresh_token_hash == hash_token t) = some s →
        s.user_id = user.id →
        ∃ msg, refresh_access_token now2 sid2 st' t ua ip
          = .error (.unauthorized msg)) := by
  refine ⟨reset_password_post now st user rt newpw, ?_, ?_, ?_, ?_, ?_⟩
  · simp [reset_password, hfind, hexp, huser, hvalid, reset_password_post,
      DBState.updateUser, DBState.updateResetToken]
  · exact ⟨{ user with local_password_hash := some (hash_password newpw) },
      List.mem_map.mpr ⟨user, List.mem_of_find?_eq_some huser, by simp⟩, rfl, rfl⟩
  · exact ⟨{ rt with used_at := some now },
      List.mem_map.mpr ⟨rt, List.mem_of_find?_eq_some hfind, by simp⟩, rfl, rfl⟩
  · intro s hs hsu
    rcases List.mem_map.mp hs with ⟨s0, hs0, rfl⟩
    by_cases hcond : (s0.user_id == user.id) = true
    · simp [hcond]
    · simp [hcond] at hsu
      exact absurd (by simp [hsu]) hcond
  · intro now2 sid2 ua ip t s hfs hsu
    have hrev : s.revoked_at = some now := by
      rcases List.mem_map.mp (List.mem_of_find?_eq_some hfs) with ⟨s0, hs0, rfl⟩
      by_cases hcond : (s0.user_id == user.id) = true
      · simp [hcond]
      · simp [hcond] at hsu
        exact absurd (by simp [hsu]) hcond
    cases hv : verify_refresh_token now2 t with
    | error e =>
      exact ⟨"Invalid refresh token", by simp [refresh_access_token, hv]⟩
    | ok p =>
      exact ⟨"Refresh token has been revoked",
        by simp [refresh_access_token, hv, hfs, hrev]⟩

def c2User : User :=
  { id := 1, full_name := "R", role := .guest, email_verified_at := some 0,
    local_enabled := true, local_username := some "r@x.com",
    local_password_hash := some (hash_password "OldPass123"),
    google_sub := none, google_email := none,
    ms_oid := none, ms_tid := none, ms_email := none,
    created_at := 0, updated_at := 0 }

def c2S1 : RefreshTokenSession :=
  { id := 21, user_id := 1, refresh_token_hash := hash_token (.refresh 1 21 0 906),
    user_agent := none, ip_address := none, expires_at := 906,
    revoked_at := none, created_at := 0 }

def c2S2 : RefreshTokenSession :=
  { c2S1 with id := 22, refresh_token_hash := hash_token (.refresh 1 22 0 906) }

def c2RT : PasswordResetToken :=
  { id := 50, user_id := 1, token_hash := hash_secret "resettok",
    expires_at := 100, used_at := none, created_at := 0 }

def c2St : DBState :=
  { users := [c2User], sessions := [c2S1, c2S2], reset_tokens := [c2RT] }

/-- Witness for C2: a user with two active refresh sessions; the reset
succeeds and every session is revoked. -/
theorem reset_password_revokes_all_sessions_witness :
    ∃ st', reset_password 5 c2St "resettok" "NewStr0ngPass" = .ok st' ∧
      (∃ u', u' ∈ st'.users ∧ u'.id = c2User.id ∧
        u'.local_password_hash = some (hash_password "NewStr0ngPass")) ∧
      (∃ t', t' ∈ st'.reset_tokens ∧ t'.id = c2RT.id ∧ t'.used_at = some 5) ∧
      (∀ s, s ∈ st'.sessions → s.user_id = c2User.id → s.revoked_at = some 5) ∧
      (∀ now2 sid2 ua ip (t : Token) s,
        st'.sessions.find?
          (fun sess => sess.refresh_token_hash == hash_token t) = some s →
        s.user_id = c2User.id →
        ∃ msg, refresh_access_token now2 sid2 st' t ua ip
          = .error (.unauthorized msg)) :=
  reset_password_revokes_all_sessions 5 c2St "resettok" "NewStr0ngPass"
    c2RT c2User rfl (by decide) rfl (by decide)

/-- Marking the session found by a hash lookup revoked (replacement by id)
keeps it the first hash match: after the rotation commit, the lookup for
the same token hash still lands on the now-revoked row. -/
lemma find?_after_revoke (l : List RefreshTokenSession) (h : TokenHash)
    (S : RefreshTokenSession) (t : Nat)
    (hfind : l.find? (fun s => s.refresh_token_hash == h) = some S) :
    (l.map fun s => if s.id == S.id then { S with revoked_at := some t } else s).find?
      (fun s => s.refresh_token_hash == h) = some { S with revoked_at := some t } := by
  induction l with
  | nil => simp at hfind
  | cons a l ih =>
    simp only [List.find?_cons] at hfind
    by_cases hpa : (a.refresh_token_hash == h) = true
    · simp only [hpa] at hfind
      injection hfind with hfind
      subst hfind
      have hhead : (if (a.id == a.id) = true then
            { a with revoked_at := some t } else a)
          = { a with revoked_at := some t } := by simp
      simp only [List.map_cons, List.find?_cons, hhead, hpa]
    · have hpa' : (a.refresh_token_hash == h) = false := by
        simpa using hpa
      simp only [hpa'] at hfind
      have hS : (S.refresh_token_hash == h) = true := by
        simpa using List.find?_some hfind
      by_cases hid : (a.id == S.id) = true
      · have hhead : (if (a.id == S.id) = true then
              { S with revoked_at := some t } else a)
            = { S with revoked_at := some t } := by simp [hid]
        simp only [List.map_cons, List.find?_cons, hhead, hS]
      · have hhead : (if (a.id == S.id) = true then
              { S with revoked_at := some t } else a) = a := by simp [hid]
        simp only [List.map_cons, List.find?_cons, hhead, hpa']
        exact ih hfind

/-- C1: a refresh token accepted once cannot be accepted again. If
`refresh_access_token` succeeds on a token, the committed state carries the
old session row with `revoked_at` set before the replacement pair exists,
and a second call with the same token — at any later instant, with any
fresh session id — fails `401` (reuse detection: the hash lookup finds the
revoked row; an expired signature also surfaces as `401`). -/
theorem refresh_rotation_one_time_use (now1 sid1 now2 sid2 : Nat)
    (st : DBState) (sub sid iat exp : Nat) (ua ip ua2 ip2 : Option String)
    (out : DBState × AuthResponseDto)
    (h1 : refresh_access_token now1 sid1 st (.refresh sub sid iat exp) ua ip
      = .ok out) :
    ∃ msg, refresh_access_token now2 sid2 out.1 (.refresh sub sid iat exp) ua2 ip2
      = .error (.unauthorized msg) := by
  unfold refresh_access_token at h1
  simp only [verify_refresh_token] at h1
  split at h1
  · exact absurd h1 (by simp)
  split at h1
  · exact absurd h1 (by simp)
  case _ S hfS =>
    split at h1
    · exact absurd h1 (by simp)
    case isFalse hrev =>
      split at h1
      · exact absurd h1 (by simp)
      case isFalse hexp1 =>
        split at h1
        · exact absurd h1 (by simp)
        case _ user hfu =>
          injection h1 with h1
          by_cases hv2 : exp ≤ now2
          · exact ⟨"Invalid refresh token",
              by simp [refresh_access_token, verify_refresh_token, hv2]⟩
          · have hsess : out.1.sessions
                = (st.sessions.map fun s =>
                    if s.id == S.id then { S with revoked_at := some now1 } else s)
                  ++ [{ id := sid1, user_id := user.id,
                        refresh_token_hash := hash_token
                          (generate_refresh_token now1 user.id sid1),
                        user_agent := ua, ip_address := ip,
                        expires_at := now1 + 7 * 24 * 60 * 60,
                        revoked_at := none, created_at := now1 }] := by
              rw [← h1]
              rfl
            have hfind2 : out.1.sessions.find?
                (fun s => s.refresh_token_hash
                  == hash_token (.refresh sub sid iat exp))
                = some { S with revoked_at := some now1 } := by
              rw [hsess, List.find?_append,
                find?_after_revoke st.sessions _ S now1 hfS]
              rfl
            exact ⟨"Refresh token has been revoked",
              by simp [refresh_access_token, verify_refresh_token, hv2, hfind2]⟩

def c1User : User :=
  { id := 1, full_name := "A", role := .guest, email_verified_at := some 0,
    local_enabled := true, local_username := some "a@x.com",
    local_password_hash := some (hash_password "Passw0rd!"),
    google_sub := none, google_email := none,
    ms_oid := none, ms_tid := none, ms_email := none,
    created_at := 0, updated_at := 0 }

def c1Session : RefreshTokenSession :=
  { id := 10, user_id := 1, refresh_token_hash := hash_token (.refresh 1 10 0 100),
    user_agent := none, ip_address := none, expires_at := 100,
    revoked_at := none, created_at := 0 }

def c1St : DBState := { users := [c1User], sessions := [c1Session], reset_tokens := [] }

/-- Witness for C1: at a concrete store a refresh succeeds once and the
same token is rejected `401` on the second call. -/
theorem refresh_rotation_one_time_use_witness :
    ∃ out, refresh_access_token 5 11 c1St (.refresh 1 10 0 100) none none
        = .ok out ∧
      ∃ msg, refresh_access_token 6 12 out.1 (.refresh 1 10 0 100) none none
        = .error (.unauthorized msg) :=
  ⟨_, rfl, refresh_rotation_one_time_use 5 11 6 12 c1St 1 10 0 100
    none none none none _ rfl⟩

end TodoApi
